import Mathlib

/-!
Shallow embedding of the core of the `shared-trading-lab` repository:
the execution simulator (`src/backtest/engine.py`, `BacktestEngine._execute_backtest`),
the metrics derivation (`BacktestEngine._calculate_metrics` and the app-level
helper `_calc_metrics_like_engine` in `src/app.py`), the RSI indicator and the
per-bar signal decision of strategy variants B and C
(`src/strategies/strategy_2.py`, `src/strategies/strategy_3.py`), the data
validation gate (`src/backtest/data_loader.py`, `DataLoader.validate_data`),
and the engine's signal merge (`BacktestEngine.run`, step 4).

Python floats are modelled by `ℚ`; float NaN ("undefined") is modelled by
`Option ℚ` with `none` standing for NaN.  Comparisons against NaN are `False`
in Python, which is mirrored by the `opt*` comparison helpers below.
Dates are abstracted to `ℕ` ordinals (the simulator orders by position only).
-/

namespace TradingLab

/-- Trade direction, `Type` field of a trade record (`engine.py` lines 138-152). -/
inductive TradeType where
  | BUY
  | SELL
  deriving DecidableEq, Repr

/-- One entry of the `positions` list built by `_execute_backtest`
(`engine.py` lines 138-152): `{Date, Type, Price, Shares}`. -/
structure Trade where
  date : ℕ
  ty : TradeType
  price : ℚ
  shares : ℚ
  deriving DecidableEq, Repr

/-- The mutable loop state of `_execute_backtest`: the `cash` and `shares`
variables and the `positions` list (`engine.py` lines 119-121). -/
structure SimState where
  cash : ℚ
  shares : ℚ
  log : List Trade
  deriving DecidableEq, Repr

/-- One row of the `portfolio` DataFrame produced by `_execute_backtest`
(`engine.py` lines 113-164): Date, Price, Signal, Cash, Shares,
Portfolio_Value, Returns. -/
structure Row where
  date : ℕ
  price : ℚ
  signal : ℤ
  cash : ℚ
  shares : ℚ
  value : ℚ
  ret : ℚ
  deriving DecidableEq, Repr

/-- The trading branch of the per-bar loop body of `_execute_backtest`
(`engine.py` lines 133-153): buy when `signal == 1 and shares == 0`
(`shares = cash*(1-commission)/price; cash = 0`, append a BUY record),
else sell when `signal == -1 and shares > 0`
(`cash = shares*price*(1-commission); shares = 0`, append a SELL record
carrying the pre-sale share count), else leave the state unchanged. -/
def execStep (comm : ℚ) (d : ℕ) (price : ℚ) (signal : ℤ) (st : SimState) :
    SimState :=
  if signal = 1 ∧ st.shares = 0 then
    let sh := st.cash * (1 - comm) / price
    ⟨0, sh, st.log ++ [⟨d, TradeType.BUY, price, sh⟩]⟩
  else if signal = -1 ∧ st.shares > 0 then
    ⟨st.shares * price * (1 - comm), 0, st.log ++ [⟨d, TradeType.SELL, price, st.shares⟩]⟩
  else
    st

/-- The full loop of `_execute_backtest` (`engine.py` lines 128-164) as a
left-to-right fold: each bar `(date, price, signal)` first updates the trade
state, then records `Portfolio_Value = cash + shares*price` and
`Returns = (value - prevValue)/prevValue` (0 on the first bar). -/
def execGo (comm : ℚ) :
    List (ℕ × ℚ × ℤ) → SimState → Option ℚ → (List Row × List Trade)
  | [], st, _ => ([], st.log)
  | (d, p, s) :: rest, st, prevVal =>
    let st' := execStep comm d p s st
    let v := st'.cash + st'.shares * p
    let ret := match prevVal with
      | none => 0
      | some pv => (v - pv) / pv
    let res := execGo comm rest st' (some v)
    (⟨d, p, s, st'.cash, st'.shares, v, ret⟩ :: res.1, res.2)

/-- Function `_execute_backtest` itself: starts from `cash = initial_capital`,
`shares = 0`, empty `positions`, no previous value, and returns the
portfolio rows together with the trade records of this run. -/
def execBacktest (initCap comm : ℚ) (bars : List (ℕ × ℚ × ℤ)) :
    List Row × List Trade :=
  execGo comm bars ⟨initCap, 0, []⟩ none

/-- The stale-state update of `self.trades` at the end of `_execute_backtest`
(`engine.py` lines 166-168): `if positions: self.trades = pd.DataFrame(positions)`.
When this run produced no positions the previous run's trades are kept. -/
def updateTrades (prev : Option (List Trade)) (positions : List Trade) :
    Option (List Trade) :=
  if positions.isEmpty then prev else some positions

/-- Field `num_trades` in `_calculate_metrics` (`engine.py` line 209):
`len(self.trades) if self.trades is not None else 0`. -/
def reportedNumTrades (trades : Option (List Trade)) : ℕ :=
  match trades with
  | some l => l.length
  | none => 0

/-! ### Metrics: volatility

`_calculate_metrics` (`engine.py` lines 195-197) computes
`volatility = portfolio['Returns'].dropna().std() * np.sqrt(252)`.
The `Returns` column is initialised to `0.0` and only overwritten with finite
ratios, so it never holds NaN and `dropna()` is the identity; `std()` uses
`ddof = 1` and yields NaN on fewer than two observations.  Since `√252` and
the standard deviation are irrational, the embedding tracks the *square* of
the volatility: `volatility² = sampleVariance · 252`, with `none` for NaN.
This is faithful because `x ↦ x²` is injective on the nonnegative reals. -/

/-- Arithmetic mean of a list, `0` on the empty list. -/
def listMean (xs : List ℚ) : ℚ := xs.sum / xs.length

/-- Unguarded sample variance (`ddof = 1`): `Σ (x - mean)² / (n - 1)`. -/
def sampleVarVal (xs : List ℚ) : ℚ :=
  (xs.map (fun x => (x - listMean xs) ^ 2)).sum / (xs.length - 1 : ℕ)

/-- Pandas `Series.std()` with pandas' default `ddof = 1`, squared: NaN (`none`)
on fewer than two observations, the sample variance otherwise. -/
def sampleVar (xs : List ℚ) : Option ℚ :=
  if 2 ≤ xs.length then some (sampleVarVal xs) else none

/-- Square of the engine's `volatility = returns.std() * np.sqrt(252)`
(`engine.py` lines 196-197); `none` models a NaN volatility. -/
def engineVolatilitySq (returns : List ℚ) : Option ℚ :=
  (sampleVar returns).map (· * 252)

/-- Square of the app-level volatility (`app.py` lines 74-75):
`returns.std() * np.sqrt(252) if len(returns) > 1 else 0.0`. -/
def appVolatilitySq (returns : List ℚ) : Option ℚ :=
  if 1 < returns.length then engineVolatilitySq returns else some 0

/-! ### Data validation (`data_loader.py`, `DataLoader.validate_data`) -/

/-- A raw input row with the six required fields, any of which may be null
(`none`).  The date is abstracted to an ordinal. -/
structure RawBar where
  date : Option ℕ
  open_ : Option ℚ
  high : Option ℚ
  low : Option ℚ
  close : Option ℚ
  volume : Option ℚ
  deriving DecidableEq, Repr

/-- The shape of the loaded DataFrame: which of the six required columns are
present, and the rows. -/
structure RawFrame where
  hasDate : Bool
  hasOpen : Bool
  hasHigh : Bool
  hasLow : Bool
  hasClose : Bool
  hasVolume : Bool
  rows : List RawBar
  deriving DecidableEq, Repr

/-- Whether all six required columns are present
(`data_loader.py` lines 109-113). -/
def hasRequiredColumns (f : RawFrame) : Bool :=
  f.hasDate && f.hasOpen && f.hasHigh && f.hasLow && f.hasClose && f.hasVolume

/-- Null check `df[required_columns].isnull().any().any()` (`data_loader.py` line 116):
some required field of some row is null. -/
def frameHasNulls (f : RawFrame) : Bool :=
  f.rows.any fun r =>
    r.date.isNone || r.open_.isNone || r.high.isNone || r.low.isNone ||
    r.close.isNone || r.volume.isNone

/-- Function `DataLoader.validate_data` (`data_loader.py` lines 96-119): returns
`False` on an empty frame, `False` when a required column is missing, and
otherwise `True` — the null check on line 116 only prints a warning
("警告: 数据中存在缺失值") and does not change the result. -/
def validate_data (f : RawFrame) : Bool :=
  if f.rows.isEmpty then false
  else if !hasRequiredColumns f then false
  else true

/-! ### Signal merge (`engine.py` lines 78-80)

`results = data.merge(signals, on='Date', how='left')` followed by
`results['Signal'] = results['Signal'].fillna(0).astype(int)`: each bar keeps
the signal of the matching date, and a date with no matching signal row gets
the NaN of the left merge, turned into `0` by `fillna`. -/

/-- The merged `Signal` column: one entry per bar date, the signal of the
first matching row of the signal table, else `0`. -/
def mergeSignals (dates : List ℕ) (sig : List (ℕ × ℤ)) : List ℤ :=
  dates.map fun d =>
    match sig.find? (fun p => p.1 = d) with
    | some p => p.2
    | none => 0

/-! ### Indicators (`strategy_2.py`, `calculate_rsi`; rolling means)

`prices.diff()` yields NaN at index 0 and `p[i] - p[i-1]` after;
`delta.where(delta > 0, 0)` replaces every entry whose condition is False —
including the NaN at index 0, since `NaN > 0` is False — by `0`.  The gain
and loss series therefore start with an artificial `0` and contain no NaN,
so `rolling(window=period).mean()` over them is defined from index
`period - 1` on. -/

/-- Successive differences `prices.diff()` without its leading NaN: `delta[i] = p[i] - p[i-1]`. -/
def deltas (prices : List ℚ) : List ℚ :=
  (prices.tail.zip prices).map fun p => p.1 - p.2

/-- Gains `delta.where(delta > 0, 0)` (`strategy_2.py` line 35): positive deltas,
everything else — the index-0 NaN included — replaced by `0`. -/
def gains (prices : List ℚ) : List ℚ :=
  match prices with
  | [] => []
  | _ :: _ => 0 :: (deltas prices).map fun d => max d 0

/-- Losses `-delta.where(delta < 0, 0)` (`strategy_2.py` line 36): absolute values
of negative deltas, everything else replaced by `0`. -/
def losses (prices : List ℚ) : List ℚ :=
  match prices with
  | [] => []
  | _ :: _ => 0 :: (deltas prices).map fun d => max (-d) 0

/-- The window `xs[i-period+1 .. i]` of `rolling(window=period)` at index
`i`; `none` while the window is not yet full (pandas' NaN warmup). -/
def windowAt (xs : List ℚ) (period i : ℕ) : Option (List ℚ) :=
  if period ≤ i + 1 ∧ i < xs.length then
    some ((xs.take (i + 1)).drop (i + 1 - period))
  else none

/-- Rolling mean `xs.rolling(window=period).mean()` at index `i`. -/
def rollingMeanAt (xs : List ℚ) (period i : ℕ) : Option ℚ :=
  (windowAt xs period i).map fun w => w.sum / (period : ℚ)

/-- Combination `rs = avg_gain / avg_loss; rsi = 100 - 100/(1 + rs)`
(`strategy_2.py` lines 41-42), with float semantics: NaN inputs propagate,
`x/0 = +inf` for `x > 0` (so `rsi = 100 - 100/inf = 100`) and `0/0 = NaN`
(so `rsi` is NaN, modelled `none`). -/
def rsiFrom (g l : Option ℚ) : Option ℚ :=
  match g, l with
  | some g, some l =>
    if l = 0 then (if g = 0 then none else some 100)
    else some (100 - 100 / (1 + g / l))
  | _, _ => none

/-- Function `calculate_rsi` (`strategy_2.py` lines 22-44) at index `i`:
rolling means of the gain and loss series combined by `rsiFrom`. -/
def rsiAt (prices : List ℚ) (period i : ℕ) : Option ℚ :=
  rsiFrom (rollingMeanAt (gains prices) period i)
    (rollingMeanAt (losses prices) period i)

/-! ### Float comparisons against possibly-NaN operands

In the signal loops the *previous* row's indicator values are read without a
NaN check, and every Python comparison involving NaN is `False`. -/

/-- Comparison `a <= b` where either side may be NaN. -/
def optLE (a b : Option ℚ) : Bool :=
  match a, b with
  | some x, some y => decide (x ≤ y)
  | _, _ => false

/-- Comparison `a < b` where either side may be NaN. -/
def optLT (a b : Option ℚ) : Bool :=
  match a, b with
  | some x, some y => decide (x < y)
  | _, _ => false

/-- Comparison `a >= b` where either side may be NaN. -/
def optGE (a b : Option ℚ) : Bool := optLE b a

/-- Comparison `a > b` where either side may be NaN. -/
def optGT (a b : Option ℚ) : Bool := optLT b a

/-! ### Strategy 2 signal loop (`strategy_2.py` lines 106-135)

The loop writes `Signal[i] = 1` when the buy condition holds and then
overwrites it with `-1` when the sell condition holds, so the emitted value
is `-1` on sell, else `1` on buy, else `0`.  Indices where a *current*
indicator is NaN are skipped (signal stays `0`); index 0 is never visited. -/

/-- Condition `is_golden_cross` (`strategy_2.py` line 120):
`prev_short <= prev_long and curr_short > curr_long`. -/
def s2GoldenCross (maS maL : List (Option ℚ)) (i : ℕ) : Bool :=
  optLE (maS.getD (i - 1) none) (maL.getD (i - 1) none) &&
  optGT (maS.getD i none) (maL.getD i none)

/-- The buy condition of strategy 2 (`strategy_2.py` lines 120-123):
golden cross and `curr_rsi < rsi_buy_threshold`. -/
def s2Buy (maS maL rsi : List (Option ℚ)) (buyThr : ℚ) (i : ℕ) : Bool :=
  s2GoldenCross maS maL i && optLT (rsi.getD i none) (some buyThr)

/-- Condition `is_death_cross` (`strategy_2.py` line 127):
`prev_short >= prev_long and curr_short < curr_long`. -/
def s2DeathCross (maS maL : List (Option ℚ)) (i : ℕ) : Bool :=
  optGE (maS.getD (i - 1) none) (maL.getD (i - 1) none) &&
  optLT (maS.getD i none) (maL.getD i none)

/-- The sell condition of strategy 2 (`strategy_2.py` lines 127-130):
death cross or `curr_rsi > rsi_overbought`. -/
def s2Sell (maS maL rsi : List (Option ℚ)) (obThr : ℚ) (i : ℕ) : Bool :=
  s2DeathCross maS maL i || optGT (rsi.getD i none) (some obThr)

/-- The value `Signal[i]` left by the strategy-2 loop body
(`strategy_2.py` lines 108-131). -/
def s2SignalAt (maS maL rsi : List (Option ℚ)) (buyThr obThr : ℚ) (i : ℕ) : ℤ :=
  if i = 0 then 0
  else if (maS.getD i none).isNone || (maL.getD i none).isNone ||
          (rsi.getD i none).isNone then 0
  else if s2Sell maS maL rsi obThr i then -1
  else if s2Buy maS maL rsi buyThr i then 1
  else 0

/-- Pipeline `Strategy2.generate_signals` (`strategy_2.py` lines 86-135): moving
averages by rolling mean, RSI by `calculate_rsi`, then the signal loop. -/
def strategy2Signals (prices : List ℚ) (shortW longW rsiP : ℕ)
    (buyThr obThr : ℚ) : List ℤ :=
  let n := prices.length
  let maS := (List.range n).map (rollingMeanAt prices shortW)
  let maL := (List.range n).map (rollingMeanAt prices longW)
  let rsi := (List.range n).map (rsiAt prices rsiP)
  (List.range n).map (s2SignalAt maS maL rsi buyThr obThr)

/-! ### Strategy 3 signal loop (`strategy_3.py` lines 146-181)

Same overwrite structure as strategy 2, over MACD/signal-line/histogram and
a volume-confirmation condition. -/

/-- Condition `is_golden_cross` (`strategy_3.py` line 166):
`prev_macd <= prev_signal and curr_macd > curr_signal`. -/
def s3GoldenCross (macd sigL : List (Option ℚ)) (i : ℕ) : Bool :=
  optLE (macd.getD (i - 1) none) (sigL.getD (i - 1) none) &&
  optGT (macd.getD i none) (sigL.getD i none)

/-- Condition `is_volume_confirmed` (`strategy_3.py` line 167):
`curr_volume > curr_volume_ma * volume_threshold`. -/
def s3VolumeConfirmed (volMA : List (Option ℚ)) (volume : List ℚ)
    (vThr : ℚ) (i : ℕ) : Bool :=
  match volMA.getD i none with
  | some m => decide (volume.getD i 0 > m * vThr)
  | none => false

/-- The buy condition of strategy 3 (`strategy_3.py` lines 166-170). -/
def s3Buy (macd sigL volMA : List (Option ℚ)) (volume : List ℚ)
    (vThr : ℚ) (i : ℕ) : Bool :=
  s3GoldenCross macd sigL i && s3VolumeConfirmed volMA volume vThr i

/-- Condition `is_death_cross` (`strategy_3.py` line 173). -/
def s3DeathCross (macd sigL : List (Option ℚ)) (i : ℕ) : Bool :=
  optGE (macd.getD (i - 1) none) (sigL.getD (i - 1) none) &&
  optLT (macd.getD i none) (sigL.getD i none)

/-- The sell condition of strategy 3 (`strategy_3.py` lines 173-176):
death cross or `curr_histogram < 0`. -/
def s3Sell (macd sigL hist : List (Option ℚ)) (i : ℕ) : Bool :=
  s3DeathCross macd sigL i || optLT (hist.getD i none) (some 0)

/-- The value `Signal[i]` left by the strategy-3 loop body
(`strategy_3.py` lines 149-177). -/
def s3SignalAt (macd sigL hist volMA : List (Option ℚ)) (volume : List ℚ)
    (vThr : ℚ) (i : ℕ) : ℤ :=
  if i = 0 then 0
  else if (macd.getD i none).isNone || (sigL.getD i none).isNone ||
          (hist.getD i none).isNone || (volMA.getD i none).isNone then 0
  else if s3Sell macd sigL hist i then -1
  else if s3Buy macd sigL volMA volume vThr i then 1
  else 0

/-! ## Shared lemmas -/

/-- Helper: the simulator emits exactly one portfolio row per bar. -/
lemma execGo_rows_length (comm : ℚ) :
    ∀ (bars : List (ℕ × ℚ × ℤ)) (st : SimState) (pv : Option ℚ),
      (execGo comm bars st pv).1.length = bars.length
  | [], _, _ => rfl
  | (_, _, _) :: rest, st, pv => by
    simp only [execGo, List.length_cons]
    rw [execGo_rows_length comm rest]

/-- Helper: one simulator step keeps cash and shares nonnegative when the
commission is in `[0, 1]` and the price is positive. -/
lemma execStep_preserves_nonneg (comm : ℚ) (d : ℕ) (price : ℚ) (signal : ℤ)
    (st : SimState) (hc : 0 ≤ comm) (hc1 : comm ≤ 1) (hp : 0 < price)
    (h : 0 ≤ st.cash ∧ 0 ≤ st.shares) :
    0 ≤ (execStep comm d price signal st).cash ∧
      0 ≤ (execStep comm d price signal st).shares := by
  unfold execStep
  split_ifs with h1 h2
  · exact ⟨le_rfl, div_nonneg (mul_nonneg h.1 (by linarith)) hp.le⟩
  · exact ⟨mul_nonneg (mul_nonneg h.2 hp.le) (by linarith), le_rfl⟩
  · exact h

/-- Helper: every row of the simulator fold satisfies
`value = cash + shares·price` and `shares ≥ 0`, given a nonnegative starting
state, commission in `[0, 1]` and positive prices. -/
lemma execGo_value_shares (comm : ℚ) (hc : 0 ≤ comm) (hc1 : comm ≤ 1) :
    ∀ (bars : List (ℕ × ℚ × ℤ)) (st : SimState) (pv : Option ℚ),
      0 ≤ st.cash → 0 ≤ st.shares → (∀ b ∈ bars, 0 < b.2.1) →
      ∀ r ∈ (execGo comm bars st pv).1,
        r.value = r.cash + r.shares * r.price ∧ 0 ≤ r.shares
  | [], st, pv => by
    intro _ _ _ r hr
    simp [execGo] at hr
  | (d, p, s) :: rest, st, pv => by
    intro hcash hshares hp r hr
    have hp0 : 0 < p := hp (d, p, s) (List.mem_cons_self _ _)
    have hst := execStep_preserves_nonneg comm d p s st hc hc1 hp0 ⟨hcash, hshares⟩
    simp only [execGo, List.mem_cons] at hr
    rcases hr with hr | hr
    · subst hr
      exact ⟨rfl, hst.2⟩
    · exact execGo_value_shares comm hc hc1 rest _ _ hst.1 hst.2
        (fun b hb => hp b (List.mem_cons_of_mem _ hb)) r hr

/-- Helper: one simulator step preserves "either all in cash or all in
shares" when the commission is in `[0, 1)` and the price is positive. -/
lemma execStep_preserves_exclusive (comm : ℚ) (d : ℕ) (price : ℚ)
    (signal : ℤ) (st : SimState) (hc : 0 ≤ comm) (hc1 : comm < 1)
    (hp : 0 < price)
    (h : (0 < st.cash ∧ st.shares = 0) ∨ (st.cash = 0 ∧ 0 < st.shares)) :
    (0 < (execStep comm d price signal st).cash ∧
        (execStep comm d price signal st).shares = 0) ∨
      ((execStep comm d price signal st).cash = 0 ∧
        0 < (execStep comm d price signal st).shares) := by
  unfold execStep
  split_ifs with h1 h2
  · rcases h with ⟨hcash, _⟩ | ⟨_, hsh⟩
    · exact Or.inr ⟨rfl, div_pos (mul_pos hcash (by linarith)) hp⟩
    · rw [h1.2] at hsh
      exact absurd hsh (lt_irrefl 0)
  · exact Or.inl ⟨mul_pos (mul_pos h2.2 hp) (by linarith), rfl⟩
  · exact h

/-- Helper: every row of the simulator fold has exactly one of
`cash > 0`, `shares > 0`, given an exclusive starting state. -/
lemma execGo_rows_exclusive (comm : ℚ) (hc : 0 ≤ comm) (hc1 : comm < 1) :
    ∀ (bars : List (ℕ × ℚ × ℤ)) (st : SimState) (pv : Option ℚ),
      ((0 < st.cash ∧ st.shares = 0) ∨ (st.cash = 0 ∧ 0 < st.shares)) →
      (∀ b ∈ bars, 0 < b.2.1) →
      ∀ r ∈ (execGo comm bars st pv).1,
        (0 < r.cash ∧ ¬0 < r.shares) ∨ (0 < r.shares ∧ ¬0 < r.cash)
  | [], st, pv => by
    intro _ _ r hr
    simp [execGo] at hr
  | (d, p, s) :: rest, st, pv => by
    intro hinv hp r hr
    have hp0 : 0 < p := hp (d, p, s) (List.mem_cons_self _ _)
    have hst := execStep_preserves_exclusive comm d p s st hc hc1 hp0 hinv
    simp only [execGo, List.mem_cons] at hr
    rcases hr with hr | hr
    · subst hr
      rcases hst with ⟨hcp, hsz⟩ | ⟨hcz, hsp⟩
      · exact Or.inl ⟨hcp, by rw [hsz]; exact lt_irrefl 0⟩
      · exact Or.inr ⟨hsp, by rw [hcz]; exact lt_irrefl 0⟩
    · exact execGo_rows_exclusive comm hc hc1 rest _ _ hst
        (fun b hb => hp b (List.mem_cons_of_mem _ hb)) r hr

/-! ## Claims -/

/-- C1: the simulator fold performs exactly the specified transitions —
in the FLAT state (`shares = 0`) a buy signal moves all cash into
`cash·(1-commissionRate)/price` shares and appends a BUY trade; in the LONG
state (`shares > 0`) a sell signal liquidates into
`shares·price·(1-commissionRate)` cash and appends a SELL trade; every other
(signal, state) pair leaves cash, shares and the trade log unchanged.
Stated as: the code's branch structure (`signal == 1 and shares == 0`,
`elif signal == -1 and shares > 0`) equals the spec's transition table. -/
theorem execStep_matches_transition_table (comm : ℚ) (d : ℕ) (price : ℚ)
    (signal : ℤ) (st : SimState) :
    execStep comm d price signal st =
      if st.shares = 0 ∧ signal = 1 then
        ⟨0, st.cash * (1 - comm) / price,
          st.log ++ [⟨d, TradeType.BUY, price, st.cash * (1 - comm) / price⟩]⟩
      else if 0 < st.shares ∧ signal = -1 then
        ⟨st.shares * price * (1 - comm), 0,
          st.log ++ [⟨d, TradeType.SELL, price, st.shares⟩]⟩
      else st := by
  unfold execStep
  by_cases hb : signal = 1 ∧ st.shares = 0
  · rw [if_pos hb, if_pos ⟨hb.2, hb.1⟩]
  · rw [if_neg hb]
    by_cases hs : signal = -1 ∧ st.shares > 0
    · rw [if_pos hs, if_neg (fun h => absurd (h.2.symm.trans hs.1) (by decide)),
        if_pos ⟨hs.2, hs.1⟩]
    · rw [if_neg hs, if_neg (fun h => hb ⟨h.2, h.1⟩),
        if_neg (fun h => hs ⟨h.2, h.1⟩)]

/-- C2: every PortfolioState row of a run satisfies
`value = cash + shares·price` and `shares ≥ 0` (long-only), assuming
`initialCapital > 0`, `commissionRate ∈ [0, 1)` and positive prices. -/
theorem portfolio_row_invariant (cap comm : ℚ) (bars : List (ℕ × ℚ × ℤ))
    (hcap : 0 < cap) (hc0 : 0 ≤ comm) (hc1 : comm < 1)
    (hp : ∀ b ∈ bars, 0 < b.2.1) :
    ∀ r ∈ (execBacktest cap comm bars).1,
      r.value = r.cash + r.shares * r.price ∧ 0 ≤ r.shares :=
  execGo_value_shares comm hc0 hc1.le bars ⟨cap, 0, []⟩ none hcap.le le_rfl hp

/-- Witness for C2: the row produced by a one-bar buy at price 10 from
capital 1000 with zero commission. -/
theorem portfolio_row_invariant_witness :
    (⟨0, 10, 1, 0, 100, 1000, 0⟩ : Row).value =
        (⟨0, 10, 1, 0, 100, 1000, 0⟩ : Row).cash +
          (⟨0, 10, 1, 0, 100, 1000, 0⟩ : Row).shares *
            (⟨0, 10, 1, 0, 100, 1000, 0⟩ : Row).price ∧
      0 ≤ (⟨0, 10, 1, 0, 100, 1000, 0⟩ : Row).shares :=
  portfolio_row_invariant 1000 0 [(0, 10, 1)] (by norm_num) le_rfl
    (by norm_num)
    (by
      intro b hb
      simp only [List.mem_singleton] at hb
      subst hb
      norm_num)
    ⟨0, 10, 1, 0, 100, 1000, 0⟩ (by norm_num [execBacktest, execGo, execStep])

/-- C8: after the transition of every bar, exactly one of `cash > 0` and
`shares > 0` holds — the portfolio is always either fully in cash or fully
invested — assuming `initialCapital > 0`, `commissionRate ∈ [0, 1)` and
positive prices (proved for every row, which covers every index `i > 0`). -/
theorem portfolio_fully_invested_or_cash (cap comm : ℚ)
    (bars : List (ℕ × ℚ × ℤ)) (hcap : 0 < cap) (hc0 : 0 ≤ comm)
    (hc1 : comm < 1) (hp : ∀ b ∈ bars, 0 < b.2.1) :
    ∀ r ∈ (execBacktest cap comm bars).1,
      (0 < r.cash ∧ ¬0 < r.shares) ∨ (0 < r.shares ∧ ¬0 < r.cash) :=
  execGo_rows_exclusive comm hc0 hc1 bars ⟨cap, 0, []⟩ none
    (Or.inl ⟨hcap, rfl⟩) hp

/-- Witness for C8: after a one-bar buy the portfolio is fully invested. -/
theorem portfolio_fully_invested_or_cash_witness :
    (0 < (⟨0, 10, 1, 0, 100, 1000, 0⟩ : Row).cash ∧
        ¬0 < (⟨0, 10, 1, 0, 100, 1000, 0⟩ : Row).shares) ∨
      (0 < (⟨0, 10, 1, 0, 100, 1000, 0⟩ : Row).shares ∧
        ¬0 < (⟨0, 10, 1, 0, 100, 1000, 0⟩ : Row).cash) :=
  portfolio_fully_invested_or_cash 1000 0 [(0, 10, 1)] (by norm_num) le_rfl
    (by norm_num)
    (by
      intro b hb
      simp only [List.mem_singleton] at hb
      subst hb
      norm_num)
    ⟨0, 10, 1, 0, 100, 1000, 0⟩ (by norm_num [execBacktest, execGo, execStep])

/-- C6 (code bug): `self.trades` is only overwritten when the current run
produced at least one position (`engine.py` lines 166-168), so a run with no
state transition reports the *previous* run's trade count.  Failing input: an
engine whose previous run left one BUY record, re-run on two all-hold bars —
the run appends no trades, yet `num_trades` is computed as 1, not 0. -/
theorem numTrades_stale_after_tradeless_run :
    (execBacktest 1000 0 [(0, 100, 0), (1, 100, 0)]).2 = [] ∧
    reportedNumTrades (updateTrades (some [⟨0, TradeType.BUY, 100, 10⟩])
        (execBacktest 1000 0 [(0, 100, 0), (1, 100, 0)]).2) = 1 :=
  ⟨rfl, rfl⟩

/-- C9: the simulator is deterministic — two runs of the pure fold on
identical inputs (bars with their signals, initial capital, commission rate)
produce identical portfolio histories and identical trade logs. -/
theorem simulator_deterministic (cap₁ comm₁ : ℚ) (bars₁ : List (ℕ × ℚ × ℤ))
    (cap₂ comm₂ : ℚ) (bars₂ : List (ℕ × ℚ × ℤ))
    (hcap : cap₁ = cap₂) (hcomm : comm₁ = comm₂) (hbars : bars₁ = bars₂) :
    execBacktest cap₁ comm₁ bars₁ = execBacktest cap₂ comm₂ bars₂ := by
  rw [hcap, hcomm, hbars]

/-- Witness for C9 at a concrete two-bar buy/sell run. -/
theorem simulator_deterministic_witness :
    execBacktest 1000 (1/1000) [(0, 10, 1), (1, 11, -1)] =
      execBacktest 1000 (1/1000) [(0, 10, 1), (1, 11, -1)] :=
  simulator_deterministic 1000 (1/1000) [(0, 10, 1), (1, 11, -1)]
    1000 (1/1000) [(0, 10, 1), (1, 11, -1)] rfl rfl rfl

/-- Helper: the gain series has one entry per price. -/
lemma gains_length (prices : List ℚ) : (gains prices).length = prices.length := by
  cases prices with
  | nil => rfl
  | cons p rest =>
    simp only [gains, deltas, List.length_cons, List.length_map,
      List.length_zip, List.tail_cons]
    omega

/-- Helper: the loss series has one entry per price. -/
lemma losses_length (prices : List ℚ) :
    (losses prices).length = prices.length := by
  cases prices with
  | nil => rfl
  | cons p rest =>
    simp only [losses, deltas, List.length_cons, List.length_map,
      List.length_zip, List.tail_cons]
    omega

/-- Helper: a rolling mean is NaN while the window is not yet full. -/
lemma rollingMeanAt_none_of_lt (xs : List ℚ) (period i : ℕ)
    (h : i + 1 < period) : rollingMeanAt xs period i = none := by
  unfold rollingMeanAt windowAt
  rw [if_neg (fun hc => absurd hc.1 (by omega))]
  rfl

/-- Helper: a rolling mean over a full in-range window is defined. -/
lemma rollingMeanAt_eq_some (xs : List ℚ) (period i : ℕ)
    (h1 : period ≤ i + 1) (h2 : i < xs.length) :
    rollingMeanAt xs period i =
      some (((xs.take (i + 1)).drop (i + 1 - period)).sum / (period : ℚ)) := by
  unfold rollingMeanAt windowAt
  rw [if_pos ⟨h1, h2⟩]
  rfl

/-- C3 (counterexample): with `period = 2` and the strictly increasing
series `[1, 2, 3]`, RSI is already defined at index `period - 1 = 1`
(with value 100), whereas the claim asserts it is undefined for the first
`period = 2` indices. -/
theorem rsi_defined_during_claimed_warmup :
    rsiAt [1, 2, 3] 2 1 = some 100 := by
  norm_num [rsiAt, rsiFrom, rollingMeanAt, windowAt, gains, losses, deltas]

/-- Helper: for defined gain and loss means, the RSI value is NaN exactly
when both means are zero. -/
lemma rsiFrom_some_isSome (A B : ℚ) :
    (rsiFrom (some A) (some B)).isSome ↔ ¬(A = 0 ∧ B = 0) := by
  simp only [rsiFrom]
  by_cases hB : B = 0
  · rw [if_pos hB]
    by_cases hA : A = 0
    · simp [hA, hB]
    · simp [hA, hB]
  · simp [hB]

/-- C3 (amended): RSI is undefined (NaN) exactly for the first `period - 1`
indices; at every in-range index `i ≥ period - 1` it is defined iff the
rolling gain mean and the rolling loss mean over its window are not both
zero (the padded index-0 delta counting as zero).  In particular, for a
series with a price change inside the window, RSI is already defined at
index `period - 1` — one index earlier than claimed. -/
theorem rsi_warmup_amended (prices : List ℚ) (period i : ℕ)
    (hp : 1 ≤ period) :
    (i + 1 < period → rsiAt prices period i = none) ∧
    (period ≤ i + 1 → i < prices.length →
      ((rsiAt prices period i).isSome ↔
        ¬(rollingMeanAt (gains prices) period i = some 0 ∧
          rollingMeanAt (losses prices) period i = some 0))) := by
  constructor
  · intro hlt
    unfold rsiAt
    rw [rollingMeanAt_none_of_lt (gains prices) period i hlt]
    rfl
  · intro h1 h2
    have hg := rollingMeanAt_eq_some (gains prices) period i h1
      (by rw [gains_length]; exact h2)
    have hl := rollingMeanAt_eq_some (losses prices) period i h1
      (by rw [losses_length]; exact h2)
    unfold rsiAt
    rw [hg, hl, rsiFrom_some_isSome]
    simp

/-- Witness for C3 at `prices = [1, 2, 3]`, `period = 2`: RSI is NaN at
index 0 and defined at index 2. -/
theorem rsi_warmup_amended_witness :
    rsiAt [1, 2, 3] 2 0 = none ∧ (rsiAt [1, 2, 3] 2 2).isSome :=
  ⟨(rsi_warmup_amended [1, 2, 3] 2 0 (by decide)).1 (by decide),
   ((rsi_warmup_amended [1, 2, 3] 2 2 (by decide)).2 (by decide)
      (by decide)).mpr
     (by norm_num [rollingMeanAt, windowAt, gains, losses, deltas])⟩

/-- C4 (counterexample): for a one-bar history the engine's volatility is
NaN (`none`), not 0 — `Returns` holds the single entry `0.0` and pandas'
sample standard deviation of one observation is NaN. -/
theorem volatility_one_bar_is_nan :
    engineVolatilitySq ((execBacktest 1000 0 [(0, 100, 0)]).1.map Row.ret) =
        none ∧
      engineVolatilitySq ((execBacktest 1000 0 [(0, 100, 0)]).1.map Row.ret) ≠
        some 0 := by
  constructor
  · rfl
  · intro h
    exact Option.noConfusion
      ((rfl : engineVolatilitySq
          ((execBacktest 1000 0 [(0, 100, 0)]).1.map Row.ret) = none) ▸ h)

/-- C4 (amended): for a completed run the engine's volatility equals the
sample standard deviation of the `Returns` column times `√252` (stated on
squares: variance times 252) when the run has at least 2 bars, and is NaN
for a one-bar run — where the app-level helper `_calc_metrics_like_engine`
instead reports 0. -/
theorem volatility_amended (cap comm : ℚ) (bars : List (ℕ × ℚ × ℤ)) :
    (2 ≤ bars.length →
      engineVolatilitySq ((execBacktest cap comm bars).1.map Row.ret) =
        some (sampleVarVal ((execBacktest cap comm bars).1.map Row.ret) *
          252)) ∧
    (bars.length = 1 →
      engineVolatilitySq ((execBacktest cap comm bars).1.map Row.ret) =
          none ∧
        appVolatilitySq ((execBacktest cap comm bars).1.map Row.ret) =
          some 0) := by
  have hlen : ((execBacktest cap comm bars).1.map Row.ret).length =
      bars.length := by
    rw [List.length_map]
    exact execGo_rows_length comm bars _ none
  constructor
  · intro h
    unfold engineVolatilitySq sampleVar
    rw [if_pos (by rw [hlen]; exact h)]
    rfl
  · intro h
    constructor
    · unfold engineVolatilitySq sampleVar
      rw [if_neg (by rw [hlen, h]; omega)]
      rfl
    · unfold appVolatilitySq
      rw [if_neg (by rw [hlen, h]; omega)]

/-- Witness for C4: a two-bar run gets the variance formula, a one-bar run
gets NaN from the engine and 0 from the app helper. -/
theorem volatility_amended_witness :
    engineVolatilitySq
        ((execBacktest 1000 0 [(0, 100, 0), (1, 101, 0)]).1.map Row.ret) =
      some (sampleVarVal
        ((execBacktest 1000 0 [(0, 100, 0), (1, 101, 0)]).1.map Row.ret) *
          252) ∧
      appVolatilitySq ((execBacktest 1000 0 [(0, 200, 0)]).1.map Row.ret) =
        some 0 :=
  ⟨(volatility_amended 1000 0 [(0, 100, 0), (1, 101, 0)]).1 (by decide),
   ((volatility_amended 1000 0 [(0, 200, 0)]).2 rfl).2⟩

/-- Frame with every required column present and a single row whose Close
is null. -/
def nullCloseFrame : RawFrame :=
  ⟨true, true, true, true, true, true,
    [⟨some 0, some 1, some 1, some 1, none, some 1⟩]⟩

/-- C5 (counterexample): a Bar sequence with a null Close in a present
required column passes validation — `validate_data` returns `True` (the
null check only prints a warning), contradicting the claim that it
returns `False` and the run is aborted. -/
theorem validate_data_accepts_nulls :
    frameHasNulls nullCloseFrame = true ∧
      validate_data nullCloseFrame = true :=
  ⟨rfl, rfl⟩

/-- C5 (amended): `validate_data` fails exactly on an empty sequence or a
missing required column; null values inside present required columns are
only warned about, and the run proceeds. -/
theorem validate_data_amended (f : RawFrame) :
    validate_data f = false ↔
      (f.rows = [] ∨ hasRequiredColumns f = false) := by
  unfold validate_data
  by_cases he : f.rows.isEmpty
  · rw [if_pos he]
    simp [List.isEmpty_iff.mp he]
  · rw [if_neg he]
    have hne : ¬f.rows = [] := fun h => he (by rw [h]; rfl)
    cases hrc : hasRequiredColumns f <;> simp [hrc, hne]

/-- C7: in Variants B and C the sell condition takes precedence — at every
index past 0 with defined current indicators, if the sell condition holds
the emitted signal is `-1`, whether or not the buy condition also holds
(the loop writes the buy signal first and then overwrites it with `-1`).
This implies the claim's statement for indices where both conditions hold;
for Variant C buy and sell can in fact never hold together, since the buy
condition forces a positive current histogram. -/
theorem sell_precedence :
    (∀ (maS maL rsi : List (Option ℚ)) (buyThr obThr : ℚ) (i : ℕ),
        i ≠ 0 →
        ((maS.getD i none).isNone || (maL.getD i none).isNone ||
            (rsi.getD i none).isNone) = false →
        s2Sell maS maL rsi obThr i = true →
        s2SignalAt maS maL rsi buyThr obThr i = -1) ∧
    (∀ (macd sigL hist volMA : List (Option ℚ)) (volume : List ℚ)
        (vThr : ℚ) (i : ℕ),
        i ≠ 0 →
        ((macd.getD i none).isNone || (sigL.getD i none).isNone ||
            (hist.getD i none).isNone || (volMA.getD i none).isNone) = false →
        s3Sell macd sigL hist i = true →
        s3SignalAt macd sigL hist volMA volume vThr i = -1) := by
  constructor
  · intro maS maL rsi buyThr obThr i hi hdef hsell
    unfold s2SignalAt
    rw [if_neg hi, if_neg (by rw [hdef]; exact Bool.false_ne_true),
      if_pos hsell]
  · intro macd sigL hist volMA volume vThr i hi hdef hsell
    unfold s3SignalAt
    rw [if_neg hi, if_neg (by rw [hdef]; exact Bool.false_ne_true),
      if_pos hsell]

/-- Witness for C7: a strategy-2 index where buy and sell conditions hold
together (golden cross with RSI 100, buy threshold 200, overbought
threshold 50) emits `-1`, and a strategy-3 index with a negative histogram
emits `-1`. -/
theorem sell_precedence_witness :
    s2SignalAt [some 0, some 1, some 5] [some 0, some 2, some 3]
        [none, none, some 100] 200 50 2 = -1 ∧
      s3SignalAt [some 0, some (-1)] [some 0, some 0] [some 0, some (-1)]
        [some 1, some 1] [1, 1] 1 1 = -1 :=
  ⟨sell_precedence.1 [some 0, some 1, some 5] [some 0, some 2, some 3]
      [none, none, some 100] 200 50 2 (by decide) (by decide) (by decide),
   sell_precedence.2 [some 0, some (-1)] [some 0, some 0]
      [some 0, some (-1)] [some 1, some 1] [1, 1] 1 1
      (by decide) (by decide) (by decide)⟩

/-- C10: the engine's left merge on Date with `fillna(0)` yields one signal
per bar; every merged value lies in `{-1, 0, 1}` provided the strategy's
signal rows do (which all three variants guarantee); and a bar whose date
matches no signal row receives the hold signal `0`. -/
theorem merged_signal_column (dates : List ℕ) (sig : List (ℕ × ℤ))
    (h : ∀ p ∈ sig, p.2 = -1 ∨ p.2 = 0 ∨ p.2 = 1) :
    (mergeSignals dates sig).length = dates.length ∧
      (∀ v ∈ mergeSignals dates sig, v = -1 ∨ v = 0 ∨ v = 1) ∧
      (∀ i (hi : i < dates.length),
        (∀ p ∈ sig, p.1 ≠ dates[i]) →
        (mergeSignals dates sig)[i]? = some 0) := by
  refine ⟨List.length_map _ _, ?_, ?_⟩
  · intro v hv
    rw [mergeSignals, List.mem_map] at hv
    obtain ⟨d, _, hveq⟩ := hv
    cases hfind : sig.find? (fun p => p.1 = d) with
    | none =>
      rw [hfind] at hveq
      exact Or.inr (Or.inl hveq.symm)
    | some p =>
      rw [hfind] at hveq
      exact hveq ▸ h p (List.mem_of_find?_eq_some hfind)
  · intro i hi hnone
    have hfind : sig.find? (fun p => p.1 = dates[i]) = none := by
      rw [List.find?_eq_none]
      intro p hp
      simpa using hnone p hp
    simp only [mergeSignals, List.getElem?_map, List.getElem?_eq_getElem hi]
    simp [hfind]

/-- Witness for C10: bars dated `[5, 6]` merged with the single signal row
`(5, 1)` give two entries, and the unmatched date 6 gets hold. -/
theorem merged_signal_column_witness :
    (mergeSignals [5, 6] [(5, 1)]).length = 2 ∧
      (mergeSignals [5, 6] [(5, 1)])[1]? = some 0 :=
  ⟨(merged_signal_column [5, 6] [(5, 1)] (by decide)).1,
   (merged_signal_column [5, 6] [(5, 1)] (by decide)).2.2 1 (by decide)
      (by decide)⟩

end TradingLab
